import Mathlib

/-!
Shallow embedding of the bus-ticketing server's reservation core:
the booking commit path (`createBooking` in
`src/controllers/bookingController.js`), the cancellation paths
(`cancelBooking`, `updateBookingStatus`), the PNR generator
(`generatePNR` in `index.js`), and the socket soft-lock layer
(`select-seat`, `booking-completed`, `getBookedSeats` in `src/index.js`).
Machine arithmetic is modelled with `Int`/`Rat`; timestamps are integer
milliseconds since the epoch; Mongo documents become Lean structures and
collections become lists in insertion order.
-/

deriving instance DecidableEq for Except

unseal Rat.add Rat.mul Rat.inv

namespace BusVara

/-- Booking status values stored in the bookings collection. -/
inductive BStatus
  | confirmed
  | pending
  | cancelled
  | completed
deriving DecidableEq, Repr

/-- One entry of a booking's `selectedSeats` array. -/
structure Seat where
  seatNumber : Nat
  priceMultiplier : ℚ
deriving DecidableEq, Repr

/-- A passenger record; only its presence matters to the control flow. -/
structure Passenger where
  name : String
deriving DecidableEq, Repr

/-- A booking's `cancellationPolicy` sub-document.  Each field is optional
because legacy bookings carry partial or missing snapshots; `cancelBooking`
reads them through optional chaining. -/
structure CancellationPolicy where
  allowed : Option Bool
  deadlineHours : Option ℚ
  refundPercentage : Option ℚ
deriving DecidableEq, Repr

/-- A document of the bookings collection (the Reservation Ledger). -/
structure Booking where
  bookingId : Nat
  busId : Nat
  passengers : List Passenger
  selectedSeats : List Seat
  totalPrice : ℤ
  status : BStatus
  departureDate : ℤ
  pnr : String
  cancellationPolicy : Option CancellationPolicy
deriving DecidableEq, Repr

/-- A document of the buses collection (the Inventory Store): one departure. -/
structure Bus where
  busId : Nat
  totalSeats : ℤ
  availableSeats : ℤ
  price : ℚ
  discountPrice : Option ℚ
  departureTime : ℤ
deriving DecidableEq, Repr

/-- The durable state touched by commit and cancellation: the departure under
scrutiny plus the bookings collection in insertion order. -/
structure DB where
  bus : Bus
  bookings : List Booking
deriving DecidableEq, Repr

/-- The request body of `POST /api/bookings` (fields the control flow reads).
`contactPresent` models the truthiness test on `contactInfo`. -/
structure BookingReq where
  busId : Nat
  passengers : List Passenger
  selectedSeats : List Seat
  contactPresent : Bool
deriving DecidableEq, Repr

/-- The error outcomes of `createBooking`. -/
inductive CommitError
  | invalidRequest
  | notFound
  | seatConflict (conflictedSeats : List Nat)
  | insufficientInventory (left : ℤ)
deriving DecidableEq, Repr

/-- `selectedSeats.map(s => s.seatNumber)`. -/
def seatNumbersOf (ss : List Seat) : List Nat :=
  ss.map (fun s => s.seatNumber)

/-- The Mongo query predicate of the conflict check in `createBooking`:
same bus, status `confirmed` or `pending`, and some seat of the booking
appears among the requested seat numbers. -/
def conflictsWith (busId : Nat) (reqSeats : List Nat) (b : Booking) : Bool :=
  b.busId = busId &&
  (b.status = BStatus.confirmed || b.status = BStatus.pending) &&
  b.selectedSeats.any (fun s => reqSeats.contains s.seatNumber)

/-- `existingBookings` as computed by `createBooking` lines 43-47. -/
def existingBookings (db : DB) (req : BookingReq) : List Booking :=
  db.bookings.filter (conflictsWith req.busId (seatNumbersOf req.selectedSeats))

/-- `conflictedSeats` reported by `createBooking` lines 53-55: all seat
numbers of every conflicting booking, flattened. -/
def conflictedSeatsOf (db : DB) (req : BookingReq) : List Nat :=
  (existingBookings db req).flatMap (fun b => seatNumbersOf b.selectedSeats)

/-- Ceiling on `ℚ` through `Rat.floor` (kept kernel-computable). -/
def ratCeil (q : ℚ) : ℤ := -Rat.floor (-q)

/-- JavaScript `Math.round`: round half toward positive infinity. -/
def jsRound (q : ℚ) : ℤ := Rat.floor (q + 1 / 2)

/-- `selectedSeats[index]?.priceMultiplier || 1`: JS truthiness makes a
missing entry or a zero multiplier fall back to 1. -/
def multOf (ss : List Seat) (i : Nat) : ℚ :=
  match ss[i]? with
  | none => 1
  | some s => if s.priceMultiplier = 0 then 1 else s.priceMultiplier

/-- The multiplier used for the passenger at index `i`. -/
def effMultiplier (req : BookingReq) (i : Nat) : ℚ :=
  multOf req.selectedSeats i

/-- The pre-discount total of `createBooking` lines 68-72: one term per
passenger, indexed. -/
def rawTotal (bus : Bus) (req : BookingReq) : ℚ :=
  ((List.range req.passengers.length).map
    (fun i => bus.price * effMultiplier req i)).sum

/-- Lines 75-77: `if (bus.discountPrice && bus.discountPrice < bus.price)`
— JS truthiness skips the scaling when `discountPrice` is absent or zero. -/
def discountedTotal (bus : Bus) (req : BookingReq) : ℚ :=
  match bus.discountPrice with
  | none => rawTotal bus req
  | some d =>
      if d = 0 then rawTotal bus req
      else if d < bus.price then rawTotal bus req * (d / bus.price)
      else rawTotal bus req

/-- The recorded total price: `Math.round` of the discounted sum (line 80). -/
def totalPriceOf (bus : Bus) (req : BookingReq) : ℤ :=
  jsRound (discountedTotal bus req)

/-- The booking document assembled by `createBooking` lines 82-110; the
routed controller writes a full cancellation-policy snapshot
`{allowed: true, deadlineHours: 24, refundPercentage: 70}`. -/
def mkBooking (bus : Bus) (req : BookingReq) (pnr : String) (newId : Nat) :
    Booking :=
  { bookingId := newId
    busId := req.busId
    passengers := req.passengers
    selectedSeats := req.selectedSeats
    totalPrice := totalPriceOf bus req
    status := BStatus.confirmed
    departureDate := bus.departureTime
    pnr := pnr
    cancellationPolicy :=
      some { allowed := some true
             deadlineHours := some 24
             refundPercentage := some 70 } }

/-- The booking document of the legacy `createBooking` variant (second copy
of the controller), which writes no `cancellationPolicy` at all. -/
def mkBookingLegacy (bus : Bus) (req : BookingReq) (pnr : String)
    (newId : Nat) : Booking :=
  { mkBooking bus req pnr newId with cancellationPolicy := none }

/-- The read-and-validate phase of `createBooking` (lines 15-65): contact
presence, bus lookup, the seat-conflict query against the bookings
collection, and the inventory check — all performed OUTSIDE the Mongo
transaction. -/
def validateBooking (db : DB) (req : BookingReq) : Except CommitError Unit :=
  if !req.contactPresent then Except.error CommitError.invalidRequest
  else if req.busId ≠ db.bus.busId then Except.error CommitError.notFound
  else if existingBookings db req ≠ [] then
    Except.error (CommitError.seatConflict (conflictedSeatsOf db req))
  else if db.bus.availableSeats < (req.passengers.length : ℤ) then
    Except.error (CommitError.insufficientInventory db.bus.availableSeats)
  else Except.ok ()

/-- The body of `session.withTransaction` (lines 116-131): unconditionally
`$inc availableSeats by -passengers.length` and insert the booking.  The
transaction contains no conflict or inventory re-check. -/
def commitTxn (db : DB) (req : BookingReq) (pnr : String) (newId : Nat) :
    DB :=
  { bus := { db.bus with
               availableSeats :=
                 db.bus.availableSeats - (req.passengers.length : ℤ) }
    bookings := db.bookings ++ [mkBooking db.bus req pnr newId] }

/-- `commitTxn` for the legacy controller variant (no policy snapshot). -/
def commitTxnLegacy (db : DB) (req : BookingReq) (pnr : String)
    (newId : Nat) : DB :=
  { bus := { db.bus with
               availableSeats :=
                 db.bus.availableSeats - (req.passengers.length : ℤ) }
    bookings := db.bookings ++ [mkBookingLegacy db.bus req pnr newId] }

/-- `createBooking` run to completion with no interleaving: validate, then
the transaction.  `pnr` is the single value returned by the one call to
`generatePNR()`; the function uses it unconditionally — there is no
collision check against the ledger and no regeneration. -/
def createBooking (db : DB) (req : BookingReq) (pnr : String) (newId : Nat) :
    Except CommitError DB :=
  (validateBooking db req).map (fun _ => commitTxn db req pnr newId)

/-- The legacy `createBooking` variant run sequentially. -/
def createBookingLegacy (db : DB) (req : BookingReq) (pnr : String)
    (newId : Nat) : Except CommitError DB :=
  (validateBooking db req).map (fun _ => commitTxnLegacy db req pnr newId)

/-- The interleaving in which two commit requests both pass the read-and-
validate phase against the same snapshot before either transaction runs,
then both transactions apply.  Each micro-step is exactly one atomic unit
of the source: the reads happen before `withTransaction`, and the
transaction body holds only the decrement and the insert. -/
def raceBothValidateThenCommit (db : DB) (r1 r2 : BookingReq)
    (p1 p2 : String) (id1 id2 : Nat) : Option DB :=
  match validateBooking db r1, validateBooking db r2 with
  | Except.ok _, Except.ok _ =>
      some (commitTxn (commitTxn db r1 p1 id1) r2 p2 id2)
  | _, _ => none

/-- The set of seat numbers used by non-cancelled bookings of the bus,
with multiplicity (for stating double-booking). -/
def liveSeatNumbers (db : DB) : List Nat :=
  (db.bookings.filter
    (fun b => b.busId = db.bus.busId && !(b.status = BStatus.cancelled))).flatMap
    (fun b => seatNumbersOf b.selectedSeats)

/-- `generatePNR` (index.js lines 716-723): 8 draws of
`Math.floor(Math.random() * 36)` indexing the 36-symbol alphabet. -/
def pnrChars : List Char :=
  "ABCDEFGHIJKLMNOPQRSTUVWXYZ0123456789".toList

/-- `generatePNR` over an explicit stream of random draws, one per loop
iteration. -/
def generatePNR (draws : Fin 8 → Fin 36) : String :=
  String.mk ((List.finRange 8).map (fun i => pnrChars.getD (draws i).val 'A'))

/-- Count of bookings carrying a given reference code. -/
def pnrCount (db : DB) (pnr : String) : Nat :=
  (db.bookings.filter (fun b => b.pnr = pnr)).length

/-- Error outcomes of `cancelBooking` (routed controller, lines 491-637). -/
inductive CancelError
  | notFound
  | alreadyCancelled
  | journeyCompleted
  | notAllowed
  | windowClosed (deadlineHours : ℚ)
deriving DecidableEq, Repr

/-- The refund payload returned on a successful cancellation. -/
structure CancelOk where
  refundAmount : ℤ
  refundPercentage : ℚ
deriving DecidableEq, Repr

/-- JavaScript `toUpperCase` over the code's ASCII reference codes. -/
def strUpper (s : String) : String := String.mk (s.toList.map Char.toUpper)

/-- `bookingsCollection.findOne({pnr: pnr.toUpperCase()})`: first booking
whose stored code equals the uppercased request parameter. -/
def findByPnr (db : DB) (pnr : String) : Option Booking :=
  db.bookings.find? (fun b => b.pnr = strUpper pnr)

/-- `(departureTime - currentTime) / (1000 * 60 * 60)` (hours, exact). -/
def hoursUntil (dep now : ℤ) : ℚ := ((dep - now : ℤ) : ℚ) / 3600000

/-- `booking.cancellationPolicy?.deadlineHours || 24`: optional chaining
plus JS truthiness (absent policy, absent field, or a zero value all fall
back to 24). -/
def effDeadline (b : Booking) : ℚ :=
  match b.cancellationPolicy with
  | none => 24
  | some p =>
      match p.deadlineHours with
      | none => 24
      | some d => if d = 0 then 24 else d

/-- `booking.cancellationPolicy?.refundPercentage || 70`. -/
def effRefund (b : Booking) : ℚ :=
  match b.cancellationPolicy with
  | none => 70
  | some p =>
      match p.refundPercentage with
      | none => 70
      | some r => if r = 0 then 70 else r

/-- `booking.cancellationPolicy?.allowed !== false`: only an explicit
`false` forbids cancellation. -/
def effAllowed (b : Booking) : Bool :=
  match b.cancellationPolicy with
  | none => true
  | some p => !(p.allowed = some false)

/-- `updateOne({pnr}, {$set: {status: "cancelled", ...}})`: flip the first
booking with the given (already-uppercased) code to cancelled. -/
def cancelFirst (l : List Booking) (pnrUp : String) : List Booking :=
  match l with
  | [] => []
  | b :: rest =>
      if b.pnr = pnrUp then { b with status := BStatus.cancelled } :: rest
      else b :: cancelFirst rest pnrUp

/-- The body of `cancelBooking` once the booking has been found:
already-cancelled guard, completed-journey guard, policy guards with
defaults, refund computation, then the transaction flipping the status
and — when `hoursUntilDeparture > 0` — incrementing the bus's
`availableSeats` by `booking.passengers.length`. -/
def cancelBookingGo (db : DB) (pnrUp : String) (now : ℤ) (b : Booking) :
    Except CancelError (DB × CancelOk) :=
  if b.status = BStatus.cancelled then
    Except.error CancelError.alreadyCancelled
  else if b.departureDate ≤ now then
    Except.error CancelError.journeyCompleted
  else if !effAllowed b then Except.error CancelError.notAllowed
  else if hoursUntil b.departureDate now < effDeadline b then
    Except.error (CancelError.windowClosed (effDeadline b))
  else
    Except.ok
      ({ bus :=
           if b.busId = db.bus.busId &&
              decide (0 < hoursUntil b.departureDate now)
           then { db.bus with
                    availableSeats :=
                      db.bus.availableSeats + (b.passengers.length : ℤ) }
           else db.bus
         bookings := cancelFirst db.bookings pnrUp },
       { refundAmount := jsRound ((b.totalPrice : ℚ) * (effRefund b / 100))
         refundPercentage := effRefund b })

/-- `cancelBooking` (routed controller, lines 491-637): lookup by the
uppercased PNR, then the guarded cancellation body. -/
def cancelBooking (db : DB) (pnr : String) (now : ℤ) :
    Except CancelError (DB × CancelOk) :=
  match findByPnr db pnr with
  | none => Except.error CancelError.notFound
  | some b => cancelBookingGo db (strUpper pnr) now b

/-- Reduction of `cancelBooking` under a successful lookup. -/
theorem cancelBooking_found (db : DB) (pnr : String) (now : ℤ)
    (b : Booking) (hfind : findByPnr db pnr = some b) :
    cancelBooking db pnr now = cancelBookingGo db (strUpper pnr) now b := by
  unfold cancelBooking
  rw [hfind]

/-- `$set` applied by `updateBookingStatus` to the first booking with the
given id. -/
def setStatusFirst (l : List Booking) (id : Nat) (st : BStatus) :
    List Booking :=
  match l with
  | [] => []
  | b :: rest =>
      if b.bookingId = id then { b with status := st } :: rest
      else b :: setStatusFirst rest id st

/-- `updateBookingStatus` (admin, controller lines 640-737): find the
booking by id; when the new status is `cancelled`, increment the bus's
`availableSeats` by `booking.passengers.length` with no check of the
booking's current status and outside any transaction; then `$set` the new
status. -/
def updateBookingStatus (db : DB) (id : Nat) (st : BStatus) :
    Option DB :=
  match db.bookings.find? (fun b => b.bookingId = id) with
  | none => none
  | some b =>
      let bus1 :=
        if st = BStatus.cancelled && b.busId = db.bus.busId
        then { db.bus with
                 availableSeats :=
                   db.bus.availableSeats + (b.passengers.length : ℤ) }
        else db.bus
      some { bus := bus1, bookings := setStatusFirst db.bookings id st }

/-- One element of a holder's selection list in `activeSessions`:
`{seatNumber, selectedAt, expiresAt, userId}` (src/index.js lines 289-294). -/
structure SeatSel where
  seatNumber : Nat
  selectedAt : ℤ
  expiresAt : ℤ
  userId : String
deriving DecidableEq, Repr

/-- One bus session's `selectedSeats` Map in insertion order:
socket id to that holder's selection list. -/
abbrev Registry := List (Nat × List SeatSel)

/-- `getBookedSeats` (src/index.js lines 135-150): query the bookings
collection for confirmed-or-pending bookings of the bus and flatten their
seat numbers; the `catch` branch returns the EMPTY list when the query
(the Reservation Ledger) fails.  `ledger = none` models the failure. -/
def getBookedSeats (ledger : Option (List Booking)) (busId : Nat) :
    List Nat :=
  match ledger with
  | none => []
  | some bs =>
      (bs.filter (fun b =>
        b.busId = busId &&
        (b.status = BStatus.confirmed || b.status = BStatus.pending))).flatMap
        (fun b => seatNumbersOf b.selectedSeats)

/-- `getSelectedByOthers` (lines 153-169): every selection of every other
socket, in Map insertion order. -/
def getSelectedByOthers (reg : Registry) (sid : Nat) : List SeatSel :=
  (reg.filter (fun e => e.1 ≠ sid)).flatMap (fun e => e.2)

/-- The requesting socket's own selection list (empty when absent). -/
def ownSeats (reg : Registry) (sid : Nat) : List SeatSel :=
  match reg.find? (fun e => e.1 = sid) with
  | none => []
  | some e => e.2

/-- Map `set` semantics: append the selection to the socket's list, adding
the socket entry at the end when absent. -/
def pushSelection (reg : Registry) (sid : Nat) (sel : SeatSel) : Registry :=
  match reg with
  | [] => [(sid, [sel])]
  | (k, v) :: rest =>
      if k = sid then (k, v ++ [sel]) :: rest
      else (k, v) :: pushSelection rest sid sel

/-- Outcomes emitted by the `select-seat` handler for `action = "select"`. -/
inductive SelectOutcome
  | unavailable
  | locked (timeLeft : ℤ)
  | granted
  | alreadyOwn
deriving DecidableEq, Repr

/-- `Math.ceil(120 - timeDiff * 60)` where
`timeDiff = (now - selectedAt) / (1000 * 60)` minutes (lines 267-273). -/
def lockTimeLeft (delta : ℤ) : ℤ :=
  ratCeil ((120 : ℚ) - ((delta : ℚ) / 60000) * 60)

/-- The `action === "select"` tail of the handler (lines 279-308): no-op
when the seat is already in the requester's own list, otherwise push a
fresh selection expiring in two minutes and report success. -/
def doSelect (reg : Registry) (sid : Nat) (uid : String) (seat : Nat)
    (now : ℤ) : SelectOutcome × Registry :=
  if (ownSeats reg sid).any (fun s => s.seatNumber = seat) then
    (SelectOutcome.alreadyOwn, reg)
  else
    (SelectOutcome.granted,
     pushSelection reg sid
       { seatNumber := seat
         selectedAt := now
         expiresAt := now + 2 * 60 * 1000
         userId := uid })

/-- The `select-seat` handler for `action = "select"` (lines 242-308),
given the session for the bus: booked-check against the ledger, then the
two-minute guard against the first other-holder selection of the seat,
then insertion of a fresh selection expiring in two minutes. -/
def selectSeat (ledger : Option (List Booking)) (busId : Nat)
    (reg : Registry) (sid : Nat) (uid : String) (seat : Nat) (now : ℤ) :
    SelectOutcome × Registry :=
  if (getBookedSeats ledger busId).contains seat then
    (SelectOutcome.unavailable, reg)
  else
    match (getSelectedByOthers reg sid).find? (fun s => s.seatNumber = seat) with
    | some o =>
        if ((now - o.selectedAt : ℤ) : ℚ) / 60000 < 2 then
          (SelectOutcome.locked (lockTimeLeft (now - o.selectedAt)), reg)
        else doSelect reg sid uid seat now
    | none => doSelect reg sid uid seat now

/-- The `booking-completed` handler (lines 353-376): strip every booked
seat from every holder's selection list and drop holders left with no
selections. -/
def bookingCompleted (reg : Registry) (bookedSeats : List Nat) : Registry :=
  (reg.map (fun e =>
    (e.1, e.2.filter (fun s => !bookedSeats.contains s.seatNumber)))).filter
    (fun e => e.2 ≠ [])

/-- The HTTP commit's effect on the combined server state: `createBooking`
lives in the controller module, which has no access to `activeSessions` or
the socket server, so a successful commit leaves the soft-lock registry
exactly as it was. -/
def commitServer (db : DB) (reg : Registry) (req : BookingReq)
    (pnr : String) (newId : Nat) : Except CommitError (DB × Registry) :=
  (createBooking db req pnr newId).map (fun db1 => (db1, reg))

/-! Concrete states for the claims about specific executions. -/

/-- A departure with 40 seats, 10 available, far-future departure. -/
def dbC1 : DB :=
  { bus := { busId := 1, totalSeats := 40, availableSeats := 10,
             price := 500, discountPrice := none,
             departureTime := 1893456000000 }
    bookings := [] }

/-- A one-passenger request for seat 7. -/
def reqC1 : BookingReq :=
  { busId := 1, passengers := [{ name := "alice" }]
    selectedSeats := [{ seatNumber := 7, priceMultiplier := 1 }]
    contactPresent := true }

/-- The state after both racing transactions have applied. -/
def dbC1final : DB :=
  commitTxn (commitTxn dbC1 reqC1 "AAAAAAAA" 1) reqC1 "BBBBBBBB" 2

/-- A two-seat departure with both seats free. -/
def dbC2 : DB :=
  { bus := { busId := 1, totalSeats := 2, availableSeats := 2,
             price := 500, discountPrice := none,
             departureTime := 1893456000000 }
    bookings := [] }

/-- A one-passenger request for seat 1. -/
def reqC2 : BookingReq :=
  { busId := 1, passengers := [{ name := "bob" }]
    selectedSeats := [{ seatNumber := 1, priceMultiplier := 1 }]
    contactPresent := true }

/-- Commit one booking, then cancel it twice through the admin
status-update endpoint — a purely sequential trace. -/
def c2trace : Option DB :=
  (createBooking dbC2 reqC2 "CCCCCCCC" 1).toOption.bind (fun d1 =>
    (updateBookingStatus d1 1 BStatus.cancelled).bind (fun d2 =>
      updateBookingStatus d2 1 BStatus.cancelled))

/-- A registry in which socket 42 (a third party) holds a live soft lock
on seat 1. -/
def regC4 : Registry :=
  [(42, [{ seatNumber := 1, selectedAt := 0, expiresAt := 120000,
           userId := "thirdpar" }])]

/-- A departure for the C4 scenario. -/
def dbC4 : DB :=
  { bus := { busId := 1, totalSeats := 40, availableSeats := 10,
             price := 500, discountPrice := none,
             departureTime := 1893456000000 }
    bookings := [] }

/-- A commit request for seat 1 by a different customer. -/
def reqC4 : BookingReq :=
  { busId := 1, passengers := [{ name := "carol" }]
    selectedSeats := [{ seatNumber := 1, priceMultiplier := 1 }]
    contactPresent := true }

/-- The combined server state after the HTTP commit of seat 1. -/
def c4res : Except CommitError (DB × Registry) :=
  commitServer dbC4 regC4 reqC4 "DDDDDDDD" 1

/-- C1: the seat-conflict re-check is NOT inside the atomic step.  In the
source, lines 42-57 (the ledger query) and line 60 (the inventory check)
run before `session.withTransaction`, whose body (lines 116-131) only
decrements and inserts.  In the interleaving where both commits validate
against the same snapshot before either transaction runs, BOTH succeed:
the final state holds two confirmed bookings for seat 7, refuting "at most
one commit succeeds; every other commit fails with SeatConflict". -/
theorem commit_race_double_books :
    validateBooking dbC1 reqC1 = Except.ok () ∧
    raceBothValidateThenCommit dbC1 reqC1 reqC1 "AAAAAAAA" "BBBBBBBB" 1 2 =
      some dbC1final ∧
    liveSeatNumbers dbC1final = [7, 7] ∧
    (dbC1final.bookings.filter
      (fun b => b.status = BStatus.confirmed)).length = 2 := by
  decide

/-- C2: the invariant `0 ≤ availableSeats ≤ totalSeats` does not survive
every sequence of commit and cancellation operations.  Sequential trace on
a 2-seat departure: commit seat 1, then cancel the booking twice through
`updateBookingStatus` — which increments `availableSeats` with no check of
the booking's current status — ending at `availableSeats = 3 > totalSeats
= 2`. -/
theorem availableSeats_exceeds_total_after_double_admin_cancel :
    c2trace.map (fun d => (d.bus.availableSeats, d.bus.totalSeats)) =
      some (3, 2) ∧
    c2trace.map (fun d =>
      decide (0 ≤ d.bus.availableSeats ∧
              d.bus.availableSeats ≤ d.bus.totalSeats)) = some false := by
  decide

/-- C3: when the Reservation Ledger is unreachable, `getBookedSeats`
catches the error and returns the EMPTY list, so a `select-seat` request
proceeds as if nothing were booked and GRANTS the soft lock — it fails
open, not closed.  Here the ledger is down (`none`), the registry empty,
and socket 5's request for seat 14 is granted and recorded. -/
theorem select_grants_lock_when_ledger_unreachable :
    selectSeat none 1 [] 5 "u" 14 1000 =
      (SelectOutcome.granted,
       [(5, [{ seatNumber := 14, selectedAt := 1000, expiresAt := 121000,
               userId := "u" }])]) ∧
    getBookedSeats none 1 = [] := by
  decide

/-- C4 counterexample: `createBooking` lives in the controller module with
no access to the socket layer, so a successful commit of seat 1 leaves the
registry exactly as it was — socket 42's soft lock on the just-committed
seat 1 is still live immediately after the commit returns, refuting "the
commit operation itself instructs the Soft-Lock Registry to force-release
every seat in S ... with no action required from any client". -/
theorem commit_leaves_foreign_lock_live :
    c4res.map (fun p => p.2) = Except.ok regC4 ∧
    (createBooking dbC4 reqC4 "DDDDDDDD" 1).isOk = true ∧
    (getSelectedByOthers regC4 99).any (fun s => s.seatNumber = 1) = true := by
  decide

/-- C4 (amended): the clearing logic exists but is driven by the
client-emitted `booking-completed` socket event, not by the commit engine;
when that handler runs it does remove every lock on the booked seats from
every holder's selection list. -/
theorem bookingCompleted_clears_all_locks_on_booked_seats :
    ∀ (reg : Registry) (seats : List Nat),
      ((bookingCompleted reg seats).all
        (fun e => e.2.all (fun s => !seats.contains s.seatNumber))) = true := by
  intro reg seats
  rw [List.all_eq_true]
  intro e he
  unfold bookingCompleted at he
  rw [List.mem_filter] at he
  obtain ⟨hmem, _⟩ := he
  rw [List.mem_map] at hmem
  obtain ⟨a, _, rfl⟩ := hmem
  rw [List.all_eq_true]
  intro s hs
  rw [List.mem_filter] at hs
  exact hs.2

/-- A ledger already holding a booking whose reference code is
"AAAAAAAA". -/
def dbC7 : DB :=
  { bus := { busId := 1, totalSeats := 40, availableSeats := 10,
             price := 500, discountPrice := none,
             departureTime := 1893456000000 }
    bookings :=
      [{ bookingId := 1, busId := 1, passengers := [{ name := "dan" }]
         selectedSeats := [{ seatNumber := 3, priceMultiplier := 1 }]
         totalPrice := 500, status := BStatus.confirmed
         departureDate := 1893456000000, pnr := "AAAAAAAA"
         cancellationPolicy := none }] }

/-- A non-conflicting request (seat 5). -/
def reqC7 : BookingReq :=
  { busId := 1, passengers := [{ name := "eve" }]
    selectedSeats := [{ seatNumber := 5, priceMultiplier := 1 }]
    contactPresent := true }

/-- The ledger after the committing transaction ran with the colliding
code. -/
def dbC7res : DB := commitTxn dbC7 reqC7 "AAAAAAAA" 2

/-- C7 counterexample: with the all-zero random stream, `generatePNR`
yields "AAAAAAAA", which collides with the code already in the ledger; the
commit engine performs no collision check and no regeneration — the
booking is inserted anyway and the ledger ends up with TWO bookings whose
reference code is "AAAAAAAA", refuting "detects the collision and
generates a fresh code (retrying)". -/
theorem pnr_collision_inserted_without_retry :
    generatePNR (fun _ => 0) = "AAAAAAAA" ∧
    pnrCount dbC7 "AAAAAAAA" = 1 ∧
    createBooking dbC7 reqC7 (generatePNR (fun _ => 0)) 2 =
      Except.ok dbC7res ∧
    pnrCount dbC7res "AAAAAAAA" = 2 := by
  decide

/-- C7 (amended): every generated code is exactly 8 characters over
`[A-Z0-9]`; but the commit engine never consults the ledger about the
code — a successful commit always adds one more booking carrying the
generated code, even when that code is already present (a duplicate
insert, never a regeneration and never an overwrite). -/
theorem pnr_format_and_no_collision_check :
    (∀ draws : Fin 8 → Fin 36,
      (generatePNR draws).length = 8 ∧
      ∀ c ∈ (generatePNR draws).toList, c ∈ pnrChars) ∧
    (∀ (db : DB) (req : BookingReq) (pnr : String) (newId : Nat) (db2 : DB),
      createBooking db req pnr newId = Except.ok db2 →
      pnrCount db2 pnr = pnrCount db pnr + 1) := by
  constructor
  · intro draws
    constructor
    · show (String.mk ((List.finRange 8).map
        (fun i => pnrChars.getD (draws i).val 'A'))).length = 8
      simp [String.length]
    · intro c hc
      have hc2 : c ∈ (List.finRange 8).map
          (fun i => pnrChars.getD (draws i).val 'A') := hc
      rw [List.mem_map] at hc2
      obtain ⟨i, _, rfl⟩ := hc2
      exact (by decide : ∀ d : Fin 36, pnrChars.getD d.val 'A' ∈ pnrChars)
        (draws i)
  · intro db req pnr newId db2 h
    unfold createBooking at h
    cases hv : validateBooking db req with
    | error e => rw [hv] at h; exact absurd h (by simp [Except.map])
    | ok u =>
        rw [hv] at h
        simp only [Except.map] at h
        cases h
        simp [pnrCount, commitTxn, mkBooking, List.filter_append]

/-- C7 amended-theorem witness: a concrete successful commit with an
already-present code increments that code's multiplicity from 1 to 2. -/
theorem pnr_no_collision_check_witness :
    pnrCount dbC7res "AAAAAAAA" = pnrCount dbC7 "AAAAAAAA" + 1 := by
  exact pnr_format_and_no_collision_check.2 dbC7 reqC7 "AAAAAAAA" 2 dbC7res
    (by decide)

/-- A ledger holding a confirmed booking for seats 1 and 2. -/
def dbC8 : DB :=
  { bus := { busId := 1, totalSeats := 40, availableSeats := 10,
             price := 500, discountPrice := none,
             departureTime := 1893456000000 }
    bookings :=
      [{ bookingId := 1, busId := 1
         passengers := [{ name := "fred" }, { name := "gina" }]
         selectedSeats := [{ seatNumber := 1, priceMultiplier := 1 },
                           { seatNumber := 2, priceMultiplier := 1 }]
         totalPrice := 1000, status := BStatus.confirmed
         departureDate := 1893456000000, pnr := "EEEE2222"
         cancellationPolicy := none }] }

/-- A request for seats 2 and 3: only seat 2 truly conflicts. -/
def reqC8 : BookingReq :=
  { busId := 1, passengers := [{ name := "hal" }, { name := "iris" }]
    selectedSeats := [{ seatNumber := 2, priceMultiplier := 1 },
                      { seatNumber := 3, priceMultiplier := 1 }]
    contactPresent := true }

/-- C8 counterexample: the request [2, 3] overlaps the existing booking
[1, 2] only at seat 2, but the error reports [1, 2] — all seats of the
overlapping booking — including seat 1, which is outside the request.
This refutes "the set of seat numbers returned equals the intersection
... (no seat outside the request is reported)". -/
theorem seatConflict_reports_seats_outside_request :
    createBooking dbC8 reqC8 "FFFF3333" 2 =
      Except.error (CommitError.seatConflict [1, 2]) ∧
    seatNumbersOf reqC8.selectedSeats = [2, 3] ∧
    1 ∈ conflictedSeatsOf dbC8 reqC8 ∧
    1 ∉ seatNumbersOf reqC8.selectedSeats ∧
    conflictedSeatsOf dbC8 reqC8 ≠ [2] := by
  decide

/-- C8 (amended): the reported list is the concatenation of ALL seat
numbers of every overlapping confirmed-or-pending booking; it contains
every truly conflicting seat (the request-ledger intersection) but may
also contain seats outside the request. -/
theorem seatConflict_contains_every_true_conflict :
    ∀ (db : DB) (req : BookingReq) (s : Nat) (b : Booking),
      b ∈ db.bookings → b.busId = req.busId →
      (b.status = BStatus.confirmed ∨ b.status = BStatus.pending) →
      s ∈ seatNumbersOf b.selectedSeats →
      s ∈ seatNumbersOf req.selectedSeats →
      s ∈ conflictedSeatsOf db req := by
  intro db req s b hb hbus hstatus hseatb hseatreq
  have hconf : conflictsWith req.busId (seatNumbersOf req.selectedSeats) b
      = true := by
    unfold conflictsWith
    rw [Bool.and_eq_true, Bool.and_eq_true]
    refine ⟨⟨by simp [hbus], ?_⟩, ?_⟩
    · rcases hstatus with h1 | h1 <;> simp [h1]
    · rw [List.any_eq_true]
      unfold seatNumbersOf at hseatb
      rw [List.mem_map] at hseatb
      obtain ⟨seat, hmem, heq⟩ := hseatb
      refine ⟨seat, hmem, ?_⟩
      rw [heq]
      simpa using hseatreq
  have hbmem : b ∈ existingBookings db req :=
    List.mem_filter.mpr ⟨hb, hconf⟩
  unfold conflictedSeatsOf
  rw [List.mem_flatMap]
  exact ⟨b, hbmem, hseatb⟩

/-- C8 amended-theorem witness: seat 2 — requested and truly booked — is
reported among the conflicting seats at the concrete C8 state. -/
theorem seatConflict_contains_witness :
    2 ∈ conflictedSeatsOf dbC8 reqC8 := by
  exact seatConflict_contains_every_true_conflict dbC8 reqC8 2
    (dbC8.bookings.getD 0
      { bookingId := 0, busId := 0, passengers := [], selectedSeats := []
        totalPrice := 0, status := BStatus.confirmed, departureDate := 0
        pnr := "", cancellationPolicy := none })
    (by decide) (by decide) (by decide) (by decide) (by decide)

/-- Modelled from the claim C9's words (the spec-side pre-discount sum,
for refinement comparison): one term `departure.price × seat.priceMultiplier`
per passenger, pairing passengers with their seats. -/
def rawTotalSpec (bus : Bus) (req : BookingReq) : ℚ :=
  ((req.passengers.zip req.selectedSeats).map
    (fun q => bus.price * q.2.priceMultiplier)).sum

/-- Modelled from the claim C9's words: scale by `discountPrice / price`
exactly when `discountPrice` exists and is strictly lower than `price`,
then round to the nearest minor unit. -/
def specTotalC9 (bus : Bus) (req : BookingReq) : ℤ :=
  match bus.discountPrice with
  | none => jsRound (rawTotalSpec bus req)
  | some d =>
      if d < bus.price then jsRound (rawTotalSpec bus req * (d / bus.price))
      else jsRound (rawTotalSpec bus req)

/-- The amended spec-side formula: a ZERO discounted price is treated as
absent (JS truthiness), so the scaling applies exactly when
`discountPrice` exists, is nonzero, and is strictly lower than `price`. -/
def specTotalC9amended (bus : Bus) (req : BookingReq) : ℤ :=
  match bus.discountPrice with
  | none => jsRound (rawTotalSpec bus req)
  | some d =>
      if d = 0 then jsRound (rawTotalSpec bus req)
      else if d < bus.price then
        jsRound (rawTotalSpec bus req * (d / bus.price))
      else jsRound (rawTotalSpec bus req)

/-- A departure whose `discountPrice` is 0 — it "exists and is strictly
lower than price" in the claim's sense, but is falsy in JS. -/
def dbC9 : DB :=
  { bus := { busId := 1, totalSeats := 40, availableSeats := 10,
             price := 100, discountPrice := some 0,
             departureTime := 1893456000000 }
    bookings := [] }

/-- A one-passenger request, multiplier 1. -/
def reqC9 : BookingReq :=
  { busId := 1, passengers := [{ name := "jack" }]
    selectedSeats := [{ seatNumber := 1, priceMultiplier := 1 }]
    contactPresent := true }

/-- The state after the C9 commit. -/
def dbC9res : DB := commitTxn dbC9 reqC9 "GGGG4444" 1

/-- C9 counterexample: with `discountPrice = 0` (existing and strictly
lower than the 100 base price) the claim's formula yields 0, but the code
treats 0 as falsy, skips the scaling, and the successful commit records a
total price of 100. -/
theorem price_discount_zero_divergence :
    createBooking dbC9 reqC9 "GGGG4444" 1 = Except.ok dbC9res ∧
    dbC9res.bookings.map (fun b => b.totalPrice) = [100] ∧
    specTotalC9 dbC9.bus reqC9 = 0 ∧
    totalPriceOf dbC9.bus reqC9 = 100 ∧
    specTotalC9 dbC9.bus reqC9 ≠ totalPriceOf dbC9.bus reqC9 := by
  decide

/-- Index `i + 1` into a cons selects index `i` of the tail. -/
theorem multOf_cons_succ (s0 : Seat) (st : List Seat) (i : Nat) :
    multOf (s0 :: st) (i + 1) = multOf st i := by
  simp [multOf]

/-- The indexed per-passenger sum of the code equals the zip sum of the
spec when the lists are aligned and no multiplier is zero. -/
theorem rawTotal_eq_specSum (price : ℚ) :
    ∀ (ps : List Passenger) (ss : List Seat),
      ss.length = ps.length →
      (∀ s ∈ ss, s.priceMultiplier ≠ 0) →
      ((List.range ps.length).map (fun i => price * multOf ss i)).sum =
        ((ps.zip ss).map (fun q => price * q.2.priceMultiplier)).sum := by
  intro ps
  induction ps with
  | nil => intro ss h _; simp
  | cons p pt ih =>
      intro ss hlen hnz
      cases ss with
      | nil => simp at hlen
      | cons s0 st =>
          simp only [List.length_cons] at hlen
          have hlen2 : st.length = pt.length := by omega
          have h0 : s0.priceMultiplier ≠ 0 :=
            hnz s0 (List.mem_cons_self s0 st)
          have hrest : ∀ s ∈ st, s.priceMultiplier ≠ 0 :=
            fun s hs => hnz s (List.mem_cons_of_mem s0 hs)
          rw [List.length_cons, List.range_succ_eq_map, List.map_cons,
            List.map_map, List.zip_cons_cons, List.map_cons,
            List.sum_cons, List.sum_cons]
          have hhead : multOf (s0 :: st) 0 = s0.priceMultiplier := by
            simp [multOf, h0]
          rw [hhead]
          congr 1
          have hfun :
              ((fun i => price * multOf (s0 :: st) i) ∘ Nat.succ) =
                fun i => price * multOf st i := by
            funext i
            simp [Function.comp, multOf_cons_succ]
          rw [hfun]
          exact ih st hlen2 hrest

/-- C9 (amended): for every departure and aligned request with no zero
multipliers, the recorded total price equals the spec formula with the
discount condition corrected to "exists, is nonzero, and is strictly
lower than price". -/
theorem price_formula_refined :
    ∀ (bus : Bus) (req : BookingReq),
      req.selectedSeats.length = req.passengers.length →
      (∀ s ∈ req.selectedSeats, s.priceMultiplier ≠ 0) →
      totalPriceOf bus req = specTotalC9amended bus req := by
  intro bus req hlen hnz
  have hraw : rawTotal bus req = rawTotalSpec bus req := by
    unfold rawTotal rawTotalSpec effMultiplier
    exact rawTotal_eq_specSum bus.price req.passengers req.selectedSeats
      hlen hnz
  unfold totalPriceOf discountedTotal specTotalC9amended
  cases hd : bus.discountPrice with
  | none => rw [hraw]
  | some d =>
      by_cases h0 : d = 0
      · simp [h0, hraw]
      · by_cases hlt : d < bus.price
        · simp [h0, hlt, hraw]
        · simp [h0, hlt, hraw]

/-- C9 amended-theorem witness: concrete departure with price 100 and
discounted price 80, two passengers with multipliers 1 and 6/5; the code's
recorded price agrees with the amended formula and evaluates to 176. -/
theorem price_formula_refined_witness :
    totalPriceOf
      { busId := 1, totalSeats := 40, availableSeats := 10, price := 100,
        discountPrice := some 80, departureTime := 1893456000000 }
      { busId := 1, passengers := [{ name := "kim" }, { name := "lea" }]
        selectedSeats := [{ seatNumber := 1, priceMultiplier := 1 },
                          { seatNumber := 2, priceMultiplier := 6 / 5 }]
        contactPresent := true } =
      specTotalC9amended
        { busId := 1, totalSeats := 40, availableSeats := 10, price := 100,
          discountPrice := some 80, departureTime := 1893456000000 }
        { busId := 1, passengers := [{ name := "kim" }, { name := "lea" }]
          selectedSeats := [{ seatNumber := 1, priceMultiplier := 1 },
                            { seatNumber := 2, priceMultiplier := 6 / 5 }]
          contactPresent := true } ∧
    totalPriceOf
      { busId := 1, totalSeats := 40, availableSeats := 10, price := 100,
        discountPrice := some 80, departureTime := 1893456000000 }
      { busId := 1, passengers := [{ name := "kim" }, { name := "lea" }]
        selectedSeats := [{ seatNumber := 1, priceMultiplier := 1 },
                          { seatNumber := 2, priceMultiplier := 6 / 5 }]
        contactPresent := true } = 176 := by
  constructor
  · exact price_formula_refined _ _ (by decide) (by decide)
  · decide

/-- `ratCeil q ≤ z` exactly when `q ≤ z`. -/
theorem ratCeil_le_iff (q : ℚ) (z : ℤ) : ratCeil q ≤ z ↔ q ≤ (z : ℚ) := by
  unfold ratCeil
  rw [neg_le, Rat.le_floor]
  push_cast
  constructor <;> intro h <;> linarith

/-- C5: with the seat not booked and the registry holding another
holder's selection for the seat acquired at time `T` (found first by the
handler, no intervening release), a select strictly before `T + 2` minutes
is answered `seat-locked` with `timeLeft ≤ 120` seconds, and a select at
or after `T + 2` minutes (seat not already in the requester's own list) is
granted and recorded with a fresh two-minute expiry. -/
theorem softlock_ttl_guard (bs : List Booking) (busId : Nat)
    (reg : Registry) (B : Nat) (uid : String) (seat : Nat) (now T : ℤ)
    (o : SeatSel)
    (hbooked : (getBookedSeats (some bs) busId).contains seat = false)
    (hfind : (getSelectedByOthers reg B).find?
      (fun s => s.seatNumber = seat) = some o)
    (hsel : o.selectedAt = T)
    (hpos : 0 ≤ now - T) :
    (now - T < 120000 →
      selectSeat (some bs) busId reg B uid seat now =
        (SelectOutcome.locked (lockTimeLeft (now - T)), reg) ∧
      lockTimeLeft (now - T) ≤ 120) ∧
    (120000 ≤ now - T →
      (ownSeats reg B).any (fun s => s.seatNumber = seat) = false →
      selectSeat (some bs) busId reg B uid seat now =
        (SelectOutcome.granted,
         pushSelection reg B
           { seatNumber := seat, selectedAt := now,
             expiresAt := now + 2 * 60 * 1000, userId := uid })) := by
  constructor
  · intro hlt
    have hq : ((now - T : ℤ) : ℚ) / 60000 < 2 := by
      rw [div_lt_iff₀ (by norm_num : (0 : ℚ) < 60000)]
      have hc : ((now - T : ℤ) : ℚ) < 120000 := by exact_mod_cast hlt
      linarith
    constructor
    · unfold selectSeat
      simp only [hbooked, Bool.false_eq_true, if_false, hfind, hsel]
      rw [if_pos hq]
    · unfold lockTimeLeft
      rw [ratCeil_le_iff]
      have hc : (0 : ℚ) ≤ ((now - T : ℤ) : ℚ) := by exact_mod_cast hpos
      have hnn : 0 ≤ (((now - T : ℤ) : ℚ) / 60000) * 60 := by positivity
      push_cast at hnn ⊢
      linarith
  · intro hge hown
    have hq2 : ¬(((now - T : ℤ) : ℚ) / 60000 < 2) := by
      rw [div_lt_iff₀ (by norm_num : (0 : ℚ) < 60000)]
      have hc : (120000 : ℚ) ≤ ((now - T : ℤ) : ℚ) := by exact_mod_cast hge
      linarith
    unfold selectSeat
    simp only [hbooked, Bool.false_eq_true, if_false, hfind, hsel]
    rw [if_neg hq2]
    unfold doSelect
    rw [hown]
    simp

/-- The registry for the C5 witness: socket 1 (holder A) selected seat 14
at time 0. -/
def regC5 : Registry :=
  [(1, [{ seatNumber := 14, selectedAt := 0, expiresAt := 120000,
          userId := "A" }])]

/-- Holder A's selection record in `regC5`. -/
def selC5 : SeatSel :=
  { seatNumber := 14, selectedAt := 0, expiresAt := 120000, userId := "A" }

/-- C5 witness: at 60 seconds holder B is answered `seat-locked` with
`timeLeft = 60 ≤ 120`; at 121 seconds (past the 2-minute TTL) holder B's
select for seat 14 is granted. -/
theorem softlock_ttl_guard_witness :
    (selectSeat (some []) 1 regC5 2 "B" 14 60000 =
      (SelectOutcome.locked (lockTimeLeft 60000), regC5) ∧
      lockTimeLeft 60000 ≤ 120) ∧
    selectSeat (some []) 1 regC5 2 "B" 14 121000 =
      (SelectOutcome.granted,
       pushSelection regC5 2
         { seatNumber := 14, selectedAt := 121000,
           expiresAt := 121000 + 2 * 60 * 1000, userId := "B" }) := by
  constructor
  · exact (softlock_ttl_guard [] 1 regC5 2 "B" 14 60000 0 selC5
      (by decide) (by decide) (by decide) (by decide)).1 (by decide)
  · exact (softlock_ttl_guard [] 1 regC5 2 "B" 14 121000 0 selC5
      (by decide) (by decide) (by decide) (by decide)).2 (by decide)
      (by decide)

/-- Cancelling the first booking with a given code turns exactly that
booking's status to `cancelled` while keeping it first for the same key. -/
theorem find_cancelFirst (l : List Booking) (key : String) (b : Booking)
    (h : l.find? (fun x => x.pnr = key) = some b) :
    (cancelFirst l key).find? (fun x => x.pnr = key) =
      some { b with status := BStatus.cancelled } := by
  induction l with
  | nil => simp at h
  | cons hd rest ih =>
      by_cases hp : hd.pnr = key
      · rw [List.find?_cons_of_pos _ (by simp [hp])] at h
        cases h
        unfold cancelFirst
        rw [if_pos hp]
        rw [List.find?_cons_of_pos _ (by simp [hp])]
      · rw [List.find?_cons_of_neg _ (by simp [hp])] at h
        unfold cancelFirst
        rw [if_neg hp]
        rw [List.find?_cons_of_neg _ (by simp [hp])]
        exact ih h

/-- C6: a cancel on a booking whose status is already `cancelled` fails
with AlreadyCancelled before touching the bus, so cancelling the same
reference code twice increments `availableSeats` by the booking's seat
count exactly once: the first call succeeds and adds the seat count, the
second call — at any later time — returns AlreadyCancelled and returns no
new state. -/
theorem cancel_alreadyCancelled_exactly_once (db : DB) (pnr : String)
    (now now2 : ℤ) (b : Booking)
    (hfind : findByPnr db pnr = some b)
    (hst : b.status = BStatus.confirmed)
    (hdep : now < b.departureDate)
    (hallow : effAllowed b = true)
    (hwin : effDeadline b ≤ hoursUntil b.departureDate now)
    (hbus : b.busId = db.bus.busId)
    (hlen : b.selectedSeats.length = b.passengers.length) :
    cancelBooking db pnr now =
      Except.ok
        ({ bus := { db.bus with
             availableSeats :=
               db.bus.availableSeats + (b.selectedSeats.length : ℤ) }
           bookings := cancelFirst db.bookings (strUpper pnr) },
         { refundAmount := jsRound ((b.totalPrice : ℚ) * (effRefund b / 100))
           refundPercentage := effRefund b }) ∧
    cancelBooking
      { bus := { db.bus with
           availableSeats :=
             db.bus.availableSeats + (b.selectedSeats.length : ℤ) }
        bookings := cancelFirst db.bookings (strUpper pnr) } pnr now2 =
      Except.error CancelError.alreadyCancelled := by
  have h0q : 0 < hoursUntil b.departureDate now := by
    unfold hoursUntil
    apply div_pos
    · have hc : (0 : ℤ) < b.departureDate - now := by omega
      exact_mod_cast hc
    · norm_num
  constructor
  · rw [cancelBooking_found db pnr now b hfind]
    unfold cancelBookingGo
    rw [if_neg (by rw [hst]; decide)]
    rw [if_neg (not_le.mpr hdep)]
    rw [if_neg (by rw [hallow]; decide)]
    rw [if_neg (not_lt.mpr hwin)]
    rw [if_pos (by rw [hbus]; simp [h0q])]
    rw [hlen]
  · have hfind2 :
        findByPnr
          { bus := { db.bus with
               availableSeats :=
                 db.bus.availableSeats + (b.selectedSeats.length : ℤ) }
            bookings := cancelFirst db.bookings (strUpper pnr) } pnr =
          some { b with status := BStatus.cancelled } :=
      find_cancelFirst db.bookings (strUpper pnr) b hfind
    rw [cancelBooking_found _ pnr now2 _ hfind2]
    unfold cancelBookingGo
    rw [if_pos rfl]

/-- The booking cancelled in the C6 witness: one seat, 500 total,
standard policy snapshot, departure 200 hours after time 0. -/
def bC6 : Booking :=
  { bookingId := 1, busId := 1, passengers := [{ name := "hana" }]
    selectedSeats := [{ seatNumber := 4, priceMultiplier := 1 }]
    totalPrice := 500, status := BStatus.confirmed
    departureDate := 720000000, pnr := "HHHH5555"
    cancellationPolicy :=
      some { allowed := some true, deadlineHours := some 24,
             refundPercentage := some 70 } }

/-- The departure for the C6 witness: 39 of 40 seats free. -/
def dbC6 : DB :=
  { bus := { busId := 1, totalSeats := 40, availableSeats := 39,
             price := 500, discountPrice := none,
             departureTime := 720000000 }
    bookings := [bC6] }

/-- C6 witness: 200 hours before departure, the first cancel succeeds
(seat count 1 restored, 70 percent refund of 500 is 350) and the second
cancel of the same reference code returns AlreadyCancelled. -/
theorem cancel_alreadyCancelled_exactly_once_witness :
    cancelBooking dbC6 "HHHH5555" 0 =
      Except.ok
        ({ bus := { dbC6.bus with
             availableSeats :=
               dbC6.bus.availableSeats + (bC6.selectedSeats.length : ℤ) }
           bookings := cancelFirst dbC6.bookings (strUpper "HHHH5555") },
         { refundAmount := jsRound ((bC6.totalPrice : ℚ) * (effRefund bC6 / 100))
           refundPercentage := effRefund bC6 }) ∧
    cancelBooking
      { bus := { dbC6.bus with
           availableSeats :=
             dbC6.bus.availableSeats + (bC6.selectedSeats.length : ℤ) }
        bookings := cancelFirst dbC6.bookings (strUpper "HHHH5555") }
      "HHHH5555" 0 =
      Except.error CancelError.alreadyCancelled ∧
    jsRound ((bC6.totalPrice : ℚ) * (effRefund bC6 / 100)) = 350 := by
  have h := cancel_alreadyCancelled_exactly_once dbC6 "HHHH5555" 0 0 bC6
    (by decide) (by decide) (by decide) (by decide) (by decide)
    (by decide) (by decide)
  exact ⟨h.1, h.2, by decide⟩

/-- C10: for a booking whose cancellation-policy snapshot is missing — or
partial, with no deadline and no refund fields and `allowed` not
explicitly false — `cancelBooking` applies the defaults (allowed, 24-hour
deadline, 70 percent refund): whenever more than 24 hours remain before
departure, the cancel succeeds with refund `round(totalPrice × 70/100)`. -/
theorem cancel_defaults_for_missing_policy (db : DB) (pnr : String)
    (now : ℤ) (b : Booking)
    (hfind : findByPnr db pnr = some b)
    (hpol : b.cancellationPolicy = none ∨
            ∃ p, b.cancellationPolicy = some p ∧ p.deadlineHours = none ∧
                 p.refundPercentage = none ∧ p.allowed ≠ some false)
    (hst : b.status ≠ BStatus.cancelled)
    (htime : 24 * 3600000 < b.departureDate - now) :
    ∃ db2, cancelBooking db pnr now =
      Except.ok (db2,
        { refundAmount := jsRound ((b.totalPrice : ℚ) * (70 / 100))
          refundPercentage := 70 }) := by
  have hdl : effDeadline b = 24 := by
    rcases hpol with h | ⟨p, hp1, hp2, hp3, hp4⟩
    · simp [effDeadline, h]
    · simp [effDeadline, hp1, hp2]
  have hrf : effRefund b = 70 := by
    rcases hpol with h | ⟨p, hp1, hp2, hp3, hp4⟩
    · simp [effRefund, h]
    · simp [effRefund, hp1, hp3]
  have hal : effAllowed b = true := by
    rcases hpol with h | ⟨p, hp1, hp2, hp3, hp4⟩
    · simp [effAllowed, h]
    · simp [effAllowed, hp1, hp4]
  have hdep : now < b.departureDate := by omega
  have hwinle : (24 : ℚ) ≤ hoursUntil b.departureDate now := by
    unfold hoursUntil
    rw [le_div_iff₀ (by norm_num : (0 : ℚ) < 3600000)]
    have hc : ((24 * 3600000 : ℤ) : ℚ) ≤ ((b.departureDate - now : ℤ) : ℚ) :=
      by exact_mod_cast le_of_lt htime
    push_cast at hc ⊢
    linarith
  refine ⟨{ bus :=
              if b.busId = db.bus.busId &&
                 decide (0 < hoursUntil b.departureDate now)
              then { db.bus with
                       availableSeats :=
                         db.bus.availableSeats + (b.passengers.length : ℤ) }
              else db.bus
            bookings := cancelFirst db.bookings (strUpper pnr) }, ?_⟩
  rw [cancelBooking_found db pnr now b hfind]
  unfold cancelBookingGo
  rw [if_neg hst]
  rw [if_neg (not_le.mpr hdep)]
  rw [if_neg (by rw [hal]; decide)]
  rw [if_neg (by rw [hdl]; exact not_lt.mpr hwinle)]
  rw [hrf]

/-- A pristine departure 30 hours before time 0, price 200, for C10. -/
def dbC10a : DB :=
  { bus := { busId := 1, totalSeats := 40, availableSeats := 10,
             price := 200, discountPrice := none,
             departureTime := 108000000 }
    bookings := [] }

/-- A one-passenger request for seat 9. -/
def reqC10 : BookingReq :=
  { busId := 1, passengers := [{ name := "ivy" }]
    selectedSeats := [{ seatNumber := 9, priceMultiplier := 1 }]
    contactPresent := true }

/-- The state after the legacy commit, which wrote no policy snapshot. -/
def dbC10b : DB := commitTxnLegacy dbC10a reqC10 "JJJJ6666" 1

/-- The policy-less booking inserted by the legacy commit. -/
def bC10 : Booking := mkBookingLegacy dbC10a.bus reqC10 "JJJJ6666" 1

/-- C10 witness: a booking created through the legacy commit path (no
policy snapshot), cancelled 30 hours before departure, succeeds with the
default 70 percent refund: round(200 × 70/100) = 140. -/
theorem cancel_defaults_for_missing_policy_witness :
    createBookingLegacy dbC10a reqC10 "JJJJ6666" 1 = Except.ok dbC10b ∧
    (∃ db2, cancelBooking dbC10b "JJJJ6666" 0 =
      Except.ok (db2,
        { refundAmount := jsRound ((bC10.totalPrice : ℚ) * (70 / 100))
          refundPercentage := 70 })) ∧
    jsRound ((bC10.totalPrice : ℚ) * (70 / 100)) = 140 := by
  refine ⟨by decide, ?_, by decide⟩
  exact cancel_defaults_for_missing_policy dbC10b "JJJJ6666" 0 bC10
    (by decide) (Or.inl (by decide)) (by decide) (by decide)

end BusVara


